import Mathlib

/-!
Verification of the event reconciliation and coalescing engine of the
NHL AppDaemon suite, a shallow embedding of `nhl_notifications_app.py`
(class `NhlGameNotifications`).

Modelling conventions:
* Python dicts keyed by strings or score signatures become association
  lists; dict assignment replaces the entry for the key, dict `pop`
  removes it.
* AppDaemon `run_in` timer handles become entries in the corresponding
  pending-timer list.  A timer can only invoke its callback while its
  entry is present (cancelling removes the entry), mirroring the
  single-threaded cooperative scheduler: every callback runs atomically.
* Python floats used for delays and timestamps become rationals `ℚ`.
* Scores are `Int` (Python ints after `int(...)` conversion).
* Fields of the app that only feed notification text rendering
  (`internal_prev_last_play`, `internal_prev_last_event_sig`,
  `player_team_map`, logos, template machinery) are not represented:
  they are never read by the scheduling, dedup or session logic.
-/

namespace NhlNotifications

/-- Event types handled by the coalescing scheduler
(`_schedule_event_coalesced` is called with `event_type` "goal" or "penalty"). -/
inductive EventType where
  | goal
  | penalty
deriving Repr, DecidableEq

/-- Shallow embedding of the `last_event` dict carried by the dashboard
sensor and of the `raw_last_event` dict built by
`_build_nhl_api_goal_payload` (only fields the engine reads). -/
structure RawEvent where
  typ : String := ""
  team : String := ""
  scorer : Option String := none
  timeInPeriod : Option String := none
  periodOrd : Option String := none
deriving Repr, DecidableEq

/-- Abstraction of the dict returned by `_match_goal_detail` (the engine's
control flow only stores it or passes it through, so the exact detail
fields are irrelevant; `none` models the empty dict `{}`). -/
structure GoalDetail where
  scorer : String := ""
  assists : List String := []
deriving Repr, DecidableEq

/-- Shallow embedding of the goal payload dict built by
`_build_nhl_api_goal_payload` and by the dashboard identified-goal branch
of `dashboard_sensor_change_callback`, restricted to the keys the engine
itself reads (`_coalesced_fire_callback` / `_coalesced_fire_goal`). -/
structure GoalPayload where
  isMyEvent : Bool := true
  myTeamAbbr : String := ""
  myTeamFull : String := ""
  oppTeamAbbr : String := ""
  oppTeamFull : String := ""
  homeAbbr : String := ""
  awayAbbr : String := ""
  periodOrd : String := ""
  timeRemaining : String := ""
  myScore : Int := 0
  oppScore : Int := 0
  rawLastEvent : Option RawEvent := none
  goalDetail : Option GoalDetail := none
deriving Repr, DecidableEq

/-- One entry of `self.pending_event_timers` (dict event_id -> timer
handle); the handle's callback arguments captured at `run_in` time are
the event type, and the scheduled delay (already floored at 0.1 s by
`run_in(..., max(0.1, float(delay)), ...)`). -/
structure PendingTimer where
  eventId : String
  eventType : EventType
  delay : ℚ
deriving Repr, DecidableEq

/-- One entry of `self.pending_sb_goal_timers` (dict score-signature ->
timer handle for the scoreboard fallback path). -/
structure SbTimer where
  sig : Int × Int
  delay : ℚ
deriving Repr, DecidableEq

/-- The dashboard sensor snapshot re-read by `_coalesced_fire_callback`
at fire time (`get_state(self.dashboard_sensor_entity_id, attribute="all")`),
restricted to the attributes that function reads.  `lastEventId` is
`str(attrs.get("last_event_id") or "")`; `lastEvent = none` models an
absent/empty `last_event` dict; `periodOrd`/`timeRemaining` are `""` when
falsy; the optional scores model `attrs.get("home_score", default)`. -/
structure DashSnapshot where
  lastEventId : String := ""
  lastEvent : Option RawEvent := none
  periodOrd : String := ""
  timeRemaining : String := ""
  homeScore : Option Int := none
  awayScore : Option Int := none
deriving Repr, DecidableEq

/-- The mutable engine state of `NhlGameNotifications`: the module-level
maps and trackers set up in `initialize` that drive scheduling, dedup and
session reset. -/
structure EngineState where
  firedEventIds : List String := []
  pendingEventTimers : List PendingTimer := []
  pendingEventPayloads : List (String × GoalPayload) := []
  nhlApiGoalIdsProcessed : List String := []
  sbGoalSuppressUntilTs : ℚ := 0
  sbLastFiredHomeAway : Option (Int × Int) := none
  pendingSbGoalTimers : List SbTimer := []
  internalPrevHomeScore : Int := 0
  internalPrevAwayScore : Int := 0
  internalPrevGameId : Option String := none
  internalWinFiredGameId : Option String := none
  internalStartFiredGameId : Option String := none
  internalPrevLastEventId : Option String := none
  pendingWinTimers : List String := []
deriving Repr, DecidableEq

/-- The state right after `initialize` / a full reset with no session. -/
def clearedEngineState : EngineState := {}

/-- Domain events dispatched to downstream consumers
(`fire_event` of a goal/opponent-goal, penalty, scoreboard goal or win). -/
inductive Dispatch where
  | goalEvent (eventId : String) (payload : GoalPayload)
  | penaltyEvent (eventId : String)
  | sbGoalEvent (sig : Int × Int)
  | winEvent (gameId : String)
deriving Repr, DecidableEq

/-- Number of live coalescing timers for an event id
(`event_id in self.pending_event_timers` membership is `0 < timerCount`). -/
def timerCount (s : EngineState) (eventId : String) : Nat :=
  s.pendingEventTimers.countP (fun t => t.eventId == eventId)

/-- Membership test `event_id in self.pending_event_timers`. -/
def hasTimer (s : EngineState) (eventId : String) : Bool :=
  s.pendingEventTimers.any (fun t => t.eventId == eventId)

/-- Embedding of `_clear_pending_events` (lines 216-237): cancels and
drops every coalescing timer and scoreboard-fallback timer, clears the
payload drafts, the fired-event log, the processed-API-goal-id set and
the scoreboard suppression state.  (Win timers are plain `run_in`
closures and are not cancelled by it.) -/
def clearPendingEvents (s : EngineState) : EngineState :=
  { s with
      pendingEventTimers := []
      pendingEventPayloads := []
      firedEventIds := []
      nhlApiGoalIdsProcessed := []
      pendingSbGoalTimers := []
      sbGoalSuppressUntilTs := 0
      sbLastFiredHomeAway := none }

/-- Embedding of `_schedule_event_coalesced` (lines 1214-1222):
if the event id is already in the fired-event log, no-op; otherwise
store the payload (dict assignment: the draft for this id is replaced),
and create a timer only when none is pending for the id, firing after
`max(0.1, delay)` seconds. -/
def scheduleEventCoalesced (s : EngineState) (eventId : String)
    (eventType : EventType) (payload : GoalPayload) (delay : ℚ) : EngineState :=
  if eventId ∈ s.firedEventIds then s
  else
    let s1 := { s with pendingEventPayloads :=
      (eventId, payload) :: s.pendingEventPayloads.filter (fun kv => kv.1 != eventId) }
    -- the payload store does not touch the timer dict, so the
    -- `event_id not in self.pending_event_timers` test reads the same dict
    if hasTimer s eventId then s1
    else { s1 with pendingEventTimers :=
      ⟨eventId, eventType, max (1/10) delay⟩ :: s1.pendingEventTimers }

/-- Embedding of the late-binding overlay inside `_coalesced_fire_callback`
(lines 1229-1247): when the freshly read snapshot's `last_event_id`
equals the firing event id, overlay the fresh raw last event, period,
time (Python `or`: fresh value wins when truthy) and the fresh scores
(mapped through home/away orientation) onto the draft payload. -/
def overlayFreshSnapshot (eventId : String) (p : GoalPayload)
    (snap : DashSnapshot) : GoalPayload :=
  if snap.lastEventId == eventId then
    { p with
        rawLastEvent := snap.lastEvent
        periodOrd := if snap.periodOrd ≠ "" then snap.periodOrd else p.periodOrd
        timeRemaining :=
          if snap.timeRemaining ≠ "" then snap.timeRemaining else p.timeRemaining
        myScore :=
          if p.myTeamAbbr == p.homeAbbr then snap.homeScore.getD p.myScore
          else snap.awayScore.getD p.myScore
        oppScore :=
          if p.myTeamAbbr == p.homeAbbr then snap.awayScore.getD p.oppScore
          else snap.homeScore.getD p.oppScore }
  else p

/-- Embedding of the suppression gate at the top of `_coalesced_fire_goal`
(lines 1265-1277): when the payload carries home and tracked abbreviations,
reconstruct the home/away score signature; if the suppression window is
still open and the last scoreboard-suppression signature matches, the
coalesced goal is discarded (`none`); otherwise the goal event is
dispatched with the (overlaid) payload. -/
def coalescedFireGoal (eventId : String) (p : GoalPayload)
    (now suppressUntil : ℚ) (lastFired : Option (Int × Int)) : Option Dispatch :=
  if p.homeAbbr ≠ "" ∧ p.myTeamAbbr ≠ "" then
    -- (home_score_now, away_score_now) = (my, opp) when the tracked team
    -- is the home side, else (opp, my)
    if now < suppressUntil ∧
        lastFired = some (if p.myTeamAbbr == p.homeAbbr then (p.myScore, p.oppScore)
          else (p.oppScore, p.myScore)) then none
    else some (.goalEvent eventId p)
  else some (.goalEvent eventId p)

/-- Embedding of `_coalesced_fire_callback` (lines 1224-1263).  The
callback only runs while its timer is live (first guard); it re-reads the
dashboard snapshot, overlays it when it is about this event id, dispatches
the goal (subject to the scoreboard-suppression gate) or the penalty,
then records the event id in the fired-event log and drops the timer and
the draft.  The engine maintains that a live timer always has a stored
draft; the unreachable missing-draft case is modelled as a no-op. -/
def coalescedFireCallback (s : EngineState) (eventId : String)
    (snap : DashSnapshot) (now : ℚ) : EngineState × Option Dispatch :=
  match s.pendingEventTimers.find? (fun t => t.eventId == eventId) with
  | none => (s, none)
  | some t =>
    match s.pendingEventPayloads.find? (fun kv => kv.1 == eventId) with
    | none => (s, none)
    | some kv =>
      let p := overlayFreshSnapshot eventId kv.2 snap
      let dispatched :=
        match t.eventType with
        | .goal =>
            coalescedFireGoal eventId p now s.sbGoalSuppressUntilTs s.sbLastFiredHomeAway
        | .penalty => some (.penaltyEvent eventId)
      ({ s with
          firedEventIds := eventId :: s.firedEventIds
          pendingEventTimers :=
            s.pendingEventTimers.filter (fun t => t.eventId != eventId)
          pendingEventPayloads :=
            s.pendingEventPayloads.filter (fun kv => kv.1 != eventId)
          internalPrevLastEventId := some eventId },
        dispatched)

/-- Embedding of `_scoreboard_goal_fire_wrapper` (lines 1438-1490), as
invoked by the AppDaemon runtime: the callback only runs while its
fallback timer is live; it dispatches the scoreboard goal (there is no
suppression check in the wrapper — cancellation happens eagerly on the
identified-feed side), records the fired score signature, opens the
suppression window and drops its own timer entry. -/
def sbTimerFire (s : EngineState) (sig : Int × Int)
    (now suppressSecs : ℚ) : EngineState × Option Dispatch :=
  if s.pendingSbGoalTimers.any (fun t => t.sig == sig) then
    ({ s with
        sbLastFiredHomeAway := some sig
        sbGoalSuppressUntilTs := now + suppressSecs
        pendingSbGoalTimers := s.pendingSbGoalTimers.filter (fun t => t.sig != sig) },
      some (.sbGoalEvent sig))
  else (s, none)

/-- Embedding of the `goal_event_id` block of `nhl_api_sensor_change_callback`
(lines 702-725): skip ids already processed; otherwise pop and cancel any
scoreboard-fallback timer for this score signature, record the signature
as last fired and open the suppression window, schedule the coalesced
goal with delay `max(0.1, coalesce_goal_seconds + broadcast_delay)`, and
mark the id processed. -/
def nhlApiGoalObserve (s : EngineState) (eventId : String) (sig : Int × Int)
    (payload : GoalPayload) (now coalesceGoal suppressSecs broadcastDelay : ℚ) :
    EngineState :=
  if eventId ∈ s.nhlApiGoalIdsProcessed then s
  else
    let s1 := { s with pendingSbGoalTimers :=
      s.pendingSbGoalTimers.filter (fun t => t.sig != sig) }
    let s2 := { s1 with
      sbLastFiredHomeAway := some sig
      sbGoalSuppressUntilTs := now + suppressSecs }
    let s3 := scheduleEventCoalesced s2 eventId .goal payload
      (max (1/10) (coalesceGoal + broadcastDelay))
    { s3 with nhlApiGoalIdsProcessed := eventId :: s3.nhlApiGoalIdsProcessed }

/-- Embedding of the identified-goal branch of
`dashboard_sensor_change_callback` (lines 1038, 1045-1093): the branch is
guarded by `last_event_id not in self.fired_event_ids`; it pops and
cancels a pending scoreboard-fallback timer for the observation's score
signature, then schedules the coalesced goal with delay
`max(0.1, coalesce_goal_seconds + broadcast_delay)`. -/
def dashboardIdentifiedGoalObserve (s : EngineState) (eventId : String)
    (sig : Int × Int) (payload : GoalPayload) (coalesceGoal broadcastDelay : ℚ) :
    EngineState :=
  if eventId ∈ s.firedEventIds then s
  else
    let s1 := { s with pendingSbGoalTimers :=
      s.pendingSbGoalTimers.filter (fun t => t.sig != sig) }
    scheduleEventCoalesced s1 eventId .goal payload
      (max (1/10) (coalesceGoal + broadcastDelay))

/-- Embedding of the identified-penalty branch of
`dashboard_sensor_change_callback` (lines 1038, 1094-1119): same guard,
scheduling with delay `max(0.1, coalesce_penalty_seconds + broadcast_delay)`. -/
def dashboardIdentifiedPenaltyObserve (s : EngineState) (eventId : String)
    (payload : GoalPayload) (coalescePenalty broadcastDelay : ℚ) : EngineState :=
  if eventId ∈ s.firedEventIds then s
  else
    scheduleEventCoalesced s eventId .penalty payload
      (max (1/10) (coalescePenalty + broadcastDelay))

/-- Embedding of the scoreboard-fallback scheduling branch of
`dashboard_sensor_change_callback` (lines 1121-1179): a score-only delta
creates a `run_in` timer with delay `max(0.1, self._get_broadcast_delay())`
(lines 1124, 1131, 1153, 1160) and stores the handle keyed by the score
signature (lines 1151, 1179; dict assignment replaces any entry). -/
def dashboardScheduleSbFallback (s : EngineState) (sig : Int × Int)
    (broadcastDelay : ℚ) : EngineState :=
  { s with pendingSbGoalTimers :=
      ⟨sig, max (1/10) broadcastDelay⟩ ::
        s.pendingSbGoalTimers.filter (fun t => t.sig != sig) }

/-- Embedding of the session-tracking head of
`dashboard_sensor_change_callback` (lines 974-997): a truthy incoming
`game_id` different from the tracked one forces a full reset and
re-baselines the previous scores from the triggering observation's
attributes; a missing `game_id` (outside test triggers) resets to a
zeroed no-session state. -/
def dashboardSessionObserve (s : EngineState) (gameId : Option String)
    (homeScore awayScore : Int) (isTest : Bool) : EngineState :=
  match gameId with
  | some g =>
    if some g ≠ s.internalPrevGameId then
      let sc := clearPendingEvents s
      { sc with
          internalPrevHomeScore := homeScore
          internalPrevAwayScore := awayScore
          internalPrevGameId := some g
          internalWinFiredGameId := none
          internalStartFiredGameId := none
          internalPrevLastEventId := none }
    else s
  | none =>
    if isTest then s
    else
      let sc := clearPendingEvents s
      { sc with
          internalPrevHomeScore := 0
          internalPrevAwayScore := 0
          internalPrevGameId := none
          internalWinFiredGameId := none
          internalStartFiredGameId := none
          internalPrevLastEventId := none }

/-- Embedding of the session-tracking head of
`nhl_api_sensor_change_callback` (lines 684-700): a truthy `game_id`
different from the tracked one clears all trackers and records the new
id; afterwards (reset or not) lines 699-700 unconditionally overwrite
the previous-score baseline with the observation's scores. -/
def nhlApiSessionObserve (s : EngineState) (gameId : Option String)
    (homeScore awayScore : Int) : EngineState :=
  let s1 :=
    match gameId with
    | some g =>
      if some g ≠ s.internalPrevGameId then
        let sc := clearPendingEvents s
        { sc with
            internalPrevGameId := some g
            internalWinFiredGameId := none
            internalStartFiredGameId := none
            internalPrevLastEventId := none }
      else s
    | none => s
  { s1 with
      internalPrevHomeScore := homeScore
      internalPrevAwayScore := awayScore }

/-- Embedding of the score-baseline update at the tail of
`dashboard_sensor_change_callback` (lines 1204-1208): when the
observation's `game_id` matches the tracked one, the baseline is
overwritten only if one side's score increased (`my_scored or
opp_scored`, which for either tracked side is exactly "home increased or
away increased"). -/
def dashboardScoreBaselineUpdate (s : EngineState) (gameId : Option String)
    (homeNew awayNew : Int) : EngineState :=
  if gameId = s.internalPrevGameId then
    if homeNew > s.internalPrevHomeScore ∨ awayNew > s.internalPrevAwayScore then
      { s with internalPrevHomeScore := homeNew, internalPrevAwayScore := awayNew }
    else s
  else s

/-- Embedding of `_determine_goal_side` (lines 732-764), a pure function
of the observation's explicit signals, the session orientation and the
previous scores.  `goalTeamAbbrev` is
`(attrs.get("goal_team_abbrev") or attrs.get("goal_team_abbr") or "").upper()`
(empty when absent); `trackedFlag` is `attrs.get("goal_tracked_team")`
restricted to the `isinstance(..., bool)` case (`none` otherwise). -/
def determineGoalSide (goalTeamAbbrev : String) (trackedFlag : Option Bool)
    (myAbbr oppAbbr homeAbbr : String)
    (prevHome prevAway curHome curAway : Int) : Bool :=
  if goalTeamAbbrev ≠ "" ∧ goalTeamAbbrev = myAbbr then true
  else if goalTeamAbbrev ≠ "" ∧ goalTeamAbbrev = oppAbbr then false
  else
    match trackedFlag with
    | some b => b
    | none =>
      if myAbbr = homeAbbr then
        if curHome > prevHome then true
        else if curAway > prevAway then false
        else false
      else
        if curAway > prevAway then true
        else if curHome > prevHome then false
        else false

/-- Embedding of `_process_nhl_api_win` (lines 913-960): on a terminal
observation, when the tracked team strictly leads, the win was not
already marked fired for this game id, and the home-only gate passes, a
delayed `run_in(_fire_win, ...)` timer is created.  The
`internal_win_fired_game_id` flag is only assigned inside the delayed
closure, not here. -/
def processNhlApiWin (s : EngineState) (gameId : Option String)
    (myScore oppScore : Int) (isHome celebrateWinOnlyIfHome : Bool) : EngineState :=
  match gameId with
  | none => s
  | some g =>
    if myScore ≤ oppScore then s
    else if s.internalWinFiredGameId = some g then s
    else if celebrateWinOnlyIfHome ∧ ¬ isHome then s
    else { s with pendingWinTimers := g :: s.pendingWinTimers }

/-- Embedding of the `_fire_win` closure (lines 928-958), invoked by the
runtime when a scheduled win timer elapses: it dispatches the team win
event and only then records `internal_win_fired_game_id`; the closure
itself performs no already-fired check. -/
def fireWinTimer (s : EngineState) (gameId : String) : EngineState × Option Dispatch :=
  if gameId ∈ s.pendingWinTimers then
    ({ s with
        internalWinFiredGameId := some gameId
        pendingWinTimers := s.pendingWinTimers.erase gameId },
      some (.winEvent gameId))
  else (s, none)

/-- Values a Home Assistant `get_state` call can hand to
`_get_broadcast_delay`: a numeric state, a string state, or anything
else (`None`, absent entity, non-scalar). -/
inductive HassVal where
  | num (q : ℚ)
  | str (s : String)
  | other
deriving Repr, DecidableEq

/-- The clamp `max(0.0, min(120.0, x))` used by `_get_broadcast_delay`. -/
def clampDelay (q : ℚ) : ℚ := max 0 (min 120 q)

/-- Embedding of `_get_broadcast_delay` (lines 178-188).  `parseFloat`
models Python `float(str)`: `none` when it raises, in which case the
enclosing `try/except` falls through to the statically configured
`broadcast_delay_seconds`; the same fallback handles an unconfigured
input entity, a non-numeric non-string state, and the sentinel strings. -/
def getBroadcastDelay (inputEntity : Option String) (entityState : HassVal)
    (parseFloat : String → Option ℚ) (staticDelay : ℚ) : ℚ :=
  match inputEntity with
  | some _ =>
    match entityState with
    | .num q => clampDelay q
    | .str v =>
      if v.toLower = "unknown" ∨ v.toLower = "unavailable" ∨
          v.toLower = "" ∨ v.toLower = "none" then clampDelay staticDelay
      else
        match parseFloat v with
        | some q => clampDelay q
        | none => clampDelay staticDelay
    | .other => clampDelay staticDelay
  | none => clampDelay staticDelay

/-- Modelled from the spec: the merge that section 4.3 prescribes for a
schedule call hitting an existing PendingEvent — "merge the new payload
fields into the existing draft (non-destructive overlay — newer non-null
fields replace older ones)", with fields absent or null in the new
payload keeping their previous values.  Compared against the stored
draft that `_schedule_event_coalesced` actually produces. -/
def specMergePayloadOverlay (oldDraft newDraft : GoalPayload) : GoalPayload :=
  { newDraft with
      rawLastEvent :=
        match newDraft.rawLastEvent with
        | some e => some e
        | none => oldDraft.rawLastEvent
      goalDetail :=
        match newDraft.goalDetail with
        | some d => some d
        | none => oldDraft.goalDetail }

/-- The discrete callbacks the single-threaded AppDaemon loop can run
within one game session, for the coalescing engine: identified-goal and
identified-penalty observations (either source), an NHL-API goal
observation, scheduling of a scoreboard fallback, a fallback timer
elapsing, and a coalescing timer elapsing. -/
inductive EngineAction where
  | observeIdentifiedGoal (eventId : String) (sig : Int × Int)
      (payload : GoalPayload) (coalesceGoal broadcastDelay : ℚ)
  | observeIdentifiedPenalty (eventId : String) (payload : GoalPayload)
      (coalescePenalty broadcastDelay : ℚ)
  | observeApiGoal (eventId : String) (sig : Int × Int) (payload : GoalPayload)
      (now coalesceGoal suppressSecs broadcastDelay : ℚ)
  | scheduleSbFallback (sig : Int × Int) (broadcastDelay : ℚ)
  | sbFire (sig : Int × Int) (now suppressSecs : ℚ)
  | timerFire (eventId : String) (snap : DashSnapshot) (now : ℚ)
deriving Repr

/-- One serially-ordered callback of the engine loop, with the domain
events it dispatches. -/
def engineStep (s : EngineState) : EngineAction → EngineState × List Dispatch
  | .observeIdentifiedGoal eventId sig payload cg bd =>
      (dashboardIdentifiedGoalObserve s eventId sig payload cg bd, [])
  | .observeIdentifiedPenalty eventId payload cp bd =>
      (dashboardIdentifiedPenaltyObserve s eventId payload cp bd, [])
  | .observeApiGoal eventId sig payload now cg sup bd =>
      (nhlApiGoalObserve s eventId sig payload now cg sup bd, [])
  | .scheduleSbFallback sig bd =>
      (dashboardScheduleSbFallback s sig bd, [])
  | .sbFire sig now sup =>
      let (s1, d) := sbTimerFire s sig now sup
      (s1, d.toList)
  | .timerFire eventId snap now =>
      let (s1, d) := coalescedFireCallback s eventId snap now
      (s1, d.toList)

/-- Run a sequence of callbacks, collecting every dispatched event. -/
def runTrace (s : EngineState) : List EngineAction → EngineState × List Dispatch
  | [] => (s, [])
  | a :: rest =>
      let (s1, ds) := engineStep s a
      let (s2, ds2) := runTrace s1 rest
      (s2, ds ++ ds2)

/-- Count of dispatched domain events carrying a given event id
(coalesced goal or penalty dispatches). -/
def dispatchesFor (eventId : String) (ds : List Dispatch) : Nat :=
  ds.countP (fun d =>
    match d with
    | .goalEvent e _ => e == eventId
    | .penaltyEvent e => e == eventId
    | _ => false)

/-- Count of dispatched win events for a given game id. -/
def winDispatchesFor (gameId : String) (ds : List Dispatch) : Nat :=
  ds.countP (fun d =>
    match d with
    | .winEvent g => g == gameId
    | _ => false)

/-! ### C7: goal-side resolver precedence -/

/-- C7: goal-side resolution (`_determine_goal_side`) is a pure function
of (observation signals, session orientation, previous scores) and
follows first-match-wins precedence: (1) an explicit team-tag
abbreviation matching the tracked (or opponent) abbreviation decides,
overriding everything; (2) otherwise an explicit boolean tracked-team
flag decides; (3) otherwise the score-delta heuristic comparing new
versus previous home/away scores decides; (4) if none resolve, the
default is an opponent goal (`false`). -/
theorem goalSidePrecedence :
    (∀ tag fl myA oppA hA ph pa ch ca, tag ≠ "" → tag = myA →
      determineGoalSide tag fl myA oppA hA ph pa ch ca = true) ∧
    (∀ tag fl myA oppA hA ph pa ch ca, tag ≠ "" → tag ≠ myA → tag = oppA →
      determineGoalSide tag fl myA oppA hA ph pa ch ca = false) ∧
    (∀ tag b myA oppA hA ph pa ch ca, (tag = "" ∨ (tag ≠ myA ∧ tag ≠ oppA)) →
      determineGoalSide tag (some b) myA oppA hA ph pa ch ca = b) ∧
    (∀ tag myA oppA hA ph pa ch ca, (tag = "" ∨ (tag ≠ myA ∧ tag ≠ oppA)) →
      myA = hA → ch > ph →
      determineGoalSide tag none myA oppA hA ph pa ch ca = true) ∧
    (∀ tag myA oppA hA ph pa ch ca, (tag = "" ∨ (tag ≠ myA ∧ tag ≠ oppA)) →
      myA = hA → ¬ ch > ph → ca > pa →
      determineGoalSide tag none myA oppA hA ph pa ch ca = false) ∧
    (∀ tag myA oppA hA ph pa ch ca, (tag = "" ∨ (tag ≠ myA ∧ tag ≠ oppA)) →
      myA ≠ hA → ca > pa →
      determineGoalSide tag none myA oppA hA ph pa ch ca = true) ∧
    (∀ tag myA oppA hA ph pa ch ca, (tag = "" ∨ (tag ≠ myA ∧ tag ≠ oppA)) →
      myA ≠ hA → ¬ ca > pa → ch > ph →
      determineGoalSide tag none myA oppA hA ph pa ch ca = false) ∧
    (∀ tag myA oppA hA ph pa ch ca, (tag = "" ∨ (tag ≠ myA ∧ tag ≠ oppA)) →
      ¬ ch > ph → ¬ ca > pa →
      determineGoalSide tag none myA oppA hA ph pa ch ca = false) := by
  refine ⟨?_, ?_, ?_, ?_, ?_, ?_, ?_, ?_⟩
  · intro tag fl myA oppA hA ph pa ch ca hne he
    subst he
    simp [determineGoalSide, hne]
  · intro tag fl myA oppA hA ph pa ch ca hne hnm he
    subst he
    simp [determineGoalSide, hne, hnm]
  · intro tag b myA oppA hA ph pa ch ca htag
    rcases htag with h | ⟨h1, h2⟩
    · simp [determineGoalSide, h]
    · simp [determineGoalSide, h1, h2]
  · intro tag myA oppA hA ph pa ch ca htag hh hc
    rcases htag with h | ⟨h1, h2⟩ <;>
      simp_all [determineGoalSide]
  · intro tag myA oppA hA ph pa ch ca htag hh hnc hca
    rcases htag with h | ⟨h1, h2⟩ <;>
      simp_all [determineGoalSide]
  · intro tag myA oppA hA ph pa ch ca htag hh hca
    rcases htag with h | ⟨h1, h2⟩ <;>
      simp_all [determineGoalSide]
  · intro tag myA oppA hA ph pa ch ca htag hh hnca hch
    rcases htag with h | ⟨h1, h2⟩ <;>
      simp_all [determineGoalSide]
  · intro tag myA oppA hA ph pa ch ca htag hnch hnca
    rcases htag with h | ⟨h1, h2⟩ <;>
      by_cases hh : myA = hA <;>
        simp_all [determineGoalSide]

/-- C7 witness: on concrete inputs each tier resolves as the theorem
states; in particular an explicit team tag overrides a contradicting
boolean flag, the flag overrides a contradicting score delta, and with
no signal at all the default is an opponent goal. -/
theorem goalSidePrecedence_witness :
    determineGoalSide "BOS" (some false) "BOS" "TOR" "BOS" 0 0 0 1 = true ∧
    determineGoalSide "TOR" (some true) "BOS" "TOR" "BOS" 0 0 1 0 = false ∧
    determineGoalSide "" (some true) "BOS" "TOR" "BOS" 0 0 0 1 = true ∧
    determineGoalSide "" none "BOS" "TOR" "BOS" 1 0 2 0 = true ∧
    determineGoalSide "" none "BOS" "TOR" "BOS" 1 0 1 1 = false ∧
    determineGoalSide "" none "BOS" "TOR" "TOR" 1 0 1 1 = true ∧
    determineGoalSide "" none "BOS" "TOR" "TOR" 1 0 2 0 = false ∧
    determineGoalSide "" none "BOS" "TOR" "BOS" 1 1 1 1 = false :=
  ⟨goalSidePrecedence.1 "BOS" (some false) "BOS" "TOR" "BOS" 0 0 0 1
      (by decide) rfl,
    goalSidePrecedence.2.1 "TOR" (some true) "BOS" "TOR" "BOS" 0 0 1 0
      (by decide) (by decide) rfl,
    goalSidePrecedence.2.2.1 "" true "BOS" "TOR" "BOS" 0 0 0 1 (Or.inl rfl),
    goalSidePrecedence.2.2.2.1 "" "BOS" "TOR" "BOS" 1 0 2 0 (Or.inl rfl) rfl
      (by decide),
    goalSidePrecedence.2.2.2.2.1 "" "BOS" "TOR" "BOS" 1 0 1 1 (Or.inl rfl) rfl
      (by decide) (by decide),
    goalSidePrecedence.2.2.2.2.2.1 "" "BOS" "TOR" "TOR" 1 0 1 1 (Or.inl rfl)
      (by decide) (by decide),
    goalSidePrecedence.2.2.2.2.2.2.1 "" "BOS" "TOR" "TOR" 1 0 2 0 (Or.inl rfl)
      (by decide) (by decide) (by decide),
    goalSidePrecedence.2.2.2.2.2.2.2 "" "BOS" "TOR" "BOS" 1 1 1 1 (Or.inl rfl)
      (by decide) (by decide)⟩

/-! ### C10: broadcast delay clamped and total -/

/-- C10: the effective broadcast delay computed by `_get_broadcast_delay`
always lies in the closed interval [0, 120] seconds; a numeric entity
state is clamped to that range, and an unset input entity, an unreadable
(non-numeric, non-string) state, a sentinel string, or a string
`float()` cannot parse all fall back to the statically configured
`broadcast_delay_seconds`, clamped to the same range.  The function is
total by construction (the Python `try/except` never lets an exception
escape). -/
theorem broadcastDelayClampedTotal :
    ∀ inputEntity entityState parseFloat staticDelay,
      (0 ≤ getBroadcastDelay inputEntity entityState parseFloat staticDelay ∧
        getBroadcastDelay inputEntity entityState parseFloat staticDelay ≤ 120) ∧
      (inputEntity = none →
        getBroadcastDelay inputEntity entityState parseFloat staticDelay =
          clampDelay staticDelay) ∧
      (∀ q, entityState = .num q → inputEntity ≠ none →
        getBroadcastDelay inputEntity entityState parseFloat staticDelay =
          clampDelay q) ∧
      (entityState = .other →
        getBroadcastDelay inputEntity entityState parseFloat staticDelay =
          clampDelay staticDelay) ∧
      (∀ v, entityState = .str v → parseFloat v = none →
        getBroadcastDelay inputEntity entityState parseFloat staticDelay =
          clampDelay staticDelay) := by
  have hb : ∀ q : ℚ, 0 ≤ clampDelay q ∧ clampDelay q ≤ 120 := by
    intro q
    exact ⟨le_max_left 0 _, max_le (by norm_num) (min_le_left _ _)⟩
  intro inputEntity entityState parseFloat staticDelay
  refine ⟨?_, ?_, ?_, ?_, ?_⟩
  · cases inputEntity with
    | none => exact hb staticDelay
    | some e =>
      cases entityState with
      | num q => exact hb q
      | str v =>
        by_cases hsent : v.toLower = "unknown" ∨ v.toLower = "unavailable" ∨
            v.toLower = "" ∨ v.toLower = "none"
        · simpa [getBroadcastDelay, hsent] using hb staticDelay
        · cases hp : parseFloat v with
          | none => simpa [getBroadcastDelay, hsent, hp] using hb staticDelay
          | some q => simpa [getBroadcastDelay, hsent, hp] using hb q
      | other => exact hb staticDelay
  · intro h; subst h; rfl
  · intro q hq hne
    cases inputEntity with
    | none => exact absurd rfl hne
    | some e => subst hq; rfl
  · intro h; subst h
    cases inputEntity <;> rfl
  · intro v hv hp
    subst hv
    cases inputEntity with
    | none => rfl
    | some e =>
      by_cases hsent : v.toLower = "unknown" ∨ v.toLower = "unavailable" ∨
          v.toLower = "" ∨ v.toLower = "none"
      · simp [getBroadcastDelay, hsent]
      · simp [getBroadcastDelay, hsent, hp]

/-- C10 witness: with the input entity configured but holding the
unparsable string state "abc", the computed delay is the clamped static
delay, and an out-of-range static delay 999 clamps to 120, inside
[0, 120]. -/
theorem broadcastDelayClampedTotal_witness :
    getBroadcastDelay (some "input_number.nhl_broadcast_delay") (.str "abc")
        (fun _ => none) 999 = clampDelay 999 ∧
    clampDelay (999 : ℚ) = 120 ∧
    (0 : ℚ) ≤ getBroadcastDelay (some "input_number.nhl_broadcast_delay")
        (.str "abc") (fun _ => none) 999 ∧
    getBroadcastDelay (some "input_number.nhl_broadcast_delay") (.str "abc")
        (fun _ => none) 999 ≤ 120 :=
  ⟨(broadcastDelayClampedTotal (some "input_number.nhl_broadcast_delay")
      (.str "abc") (fun _ => none) 999).2.2.2.2 "abc" rfl rfl,
    by norm_num [clampDelay],
    (broadcastDelayClampedTotal (some "input_number.nhl_broadcast_delay")
      (.str "abc") (fun _ => none) 999).1.1,
    (broadcastDelayClampedTotal (some "input_number.nhl_broadcast_delay")
      (.str "abc") (fun _ => none) 999).1.2⟩

/-! ### C3: scheduling onto an existing PendingEvent -/

/-- C3 counterexample: a second schedule call for an event id with a
live PendingEvent does not merge as a non-destructive overlay.  Event
"55" is first scheduled with a matched goal detail; a later schedule
call for the same id carries no goal detail (`none`, the empty
`_match_goal_detail` result), and the stored draft afterwards is exactly
the new payload: the earlier non-null detail is lost, whereas the
spec-modelled overlay would have kept it. -/
theorem schedulePayloadReplace_cex :
    (let p1 : GoalPayload :=
      { goalDetail := some { scorer := "Pastrnak", assists := ["Marchand"] } }
    let p2 : GoalPayload := { goalDetail := none }
    let s1 := scheduleEventCoalesced clearedEngineState "55" .goal p1 (13/10)
    let s2 := scheduleEventCoalesced s1 "55" .goal p2 (13/10)
    s2.pendingEventPayloads.find? (fun kv => kv.1 == "55") = some ("55", p2) ∧
    p2.goalDetail = none ∧
    (specMergePayloadOverlay p1 p2).goalDetail =
      some { scorer := "Pastrnak", assists := ["Marchand"] } ∧
    p2 ≠ specMergePayloadOverlay p1 p2) := by
  refine ⟨rfl, rfl, rfl, ?_⟩
  decide

/-- C3 amended: a schedule call whose event id already has a
PendingEvent stores the new payload as the draft wholesale (dict
assignment, not a field-wise overlay: older non-null fields are not
preserved), and the existing fire deadline is neither reset nor
extended — the pending timer entry is left exactly as it was
(fixed-delay semantics). -/
theorem schedulePayloadReplaceFixedDeadline :
    ∀ s eventId eventType payload delay,
      eventId ∉ s.firedEventIds →
      ((scheduleEventCoalesced s eventId eventType payload delay).pendingEventPayloads.find?
          (fun kv => kv.1 == eventId) = some (eventId, payload)) ∧
      (hasTimer s eventId = true →
        (scheduleEventCoalesced s eventId eventType payload delay).pendingEventTimers =
          s.pendingEventTimers) := by
  intro s eventId eventType payload delay hnf
  constructor
  · by_cases ht : hasTimer s eventId <;>
      simp [scheduleEventCoalesced, hnf, ht, List.find?]
  · intro ht
    simp [scheduleEventCoalesced, hnf, ht]

/-- C3 amended witness: rescheduling event "55" while its timer is live
leaves the timer list untouched and stores the new draft. -/
theorem schedulePayloadReplaceFixedDeadline_witness :
    (let p1 : GoalPayload := { periodOrd := "1st" }
    let p2 : GoalPayload := { periodOrd := "" }
    let s1 := scheduleEventCoalesced clearedEngineState "55" .goal p1 (13/10)
    ((scheduleEventCoalesced s1 "55" .goal p2 (7/2)).pendingEventPayloads.find?
        (fun kv => kv.1 == "55") = some ("55", p2)) ∧
    (scheduleEventCoalesced s1 "55" .goal p2 (7/2)).pendingEventTimers =
      s1.pendingEventTimers) := by
  refine ⟨(schedulePayloadReplaceFixedDeadline _ "55" .goal _ (7/2)
      (by decide)).1, ?_⟩
  exact (schedulePayloadReplaceFixedDeadline _ "55" .goal _ (7/2)
      (by decide)).2 (by decide)

/-! ### C4: score baseline behaviour within one game -/

/-- C4 counterexample: within one `game_id`, an NHL-API observation with
scores lower than the tracked baseline neither preserves the baseline
nor forces a session reset.  Starting from a session for game
"2024020500" with baseline 2-1 and a non-empty fired-event log, an API
observation of the same game carrying 1-0 lowers the baseline (a score
rollback) and leaves the fired log, the processed-goal set and the
suppression state untouched — no reset happens. -/
theorem scoreDecreaseNoReset_cex :
    (let s0 : EngineState :=
      { internalPrevGameId := some "2024020500"
        internalPrevHomeScore := 2
        internalPrevAwayScore := 1
        firedEventIds := ["55"]
        nhlApiGoalIdsProcessed := ["55"]
        sbGoalSuppressUntilTs := 7 }
    let s1 := nhlApiSessionObserve s0 (some "2024020500") 1 0
    s1.internalPrevHomeScore < s0.internalPrevHomeScore ∧
    s1.internalPrevAwayScore < s0.internalPrevAwayScore ∧
    s1.firedEventIds = ["55"] ∧
    s1.nhlApiGoalIdsProcessed = ["55"] ∧
    s1.sbGoalSuppressUntilTs = 7 ∧
    s1.internalPrevGameId = some "2024020500") := by
  refine ⟨?_, ?_, rfl, rfl, rfl, rfl⟩ <;> decide

/-- C4 amended: within one `game_id` a score decrease triggers neither a
session reset nor a negative delta, but the baseline is not monotone
either: the dashboard path updates the baseline only when a side's score
increased (a pure decrease leaves it unchanged), while the NHL-API path
unconditionally overwrites the baseline with the observed scores (so it
can decrease); a full session reset happens only on a `game_id` change. -/
theorem scoreBaselineBehavior :
    (∀ s gameId homeNew awayNew, gameId = s.internalPrevGameId →
      ¬ (homeNew > s.internalPrevHomeScore ∨ awayNew > s.internalPrevAwayScore) →
      dashboardScoreBaselineUpdate s gameId homeNew awayNew = s) ∧
    (∀ s g homeScore awayScore, some g = s.internalPrevGameId →
      nhlApiSessionObserve s (some g) homeScore awayScore =
        { s with internalPrevHomeScore := homeScore,
                 internalPrevAwayScore := awayScore }) ∧
    (∀ s g homeScore awayScore, some g ≠ s.internalPrevGameId →
      (nhlApiSessionObserve s (some g) homeScore awayScore).firedEventIds = [] ∧
      (nhlApiSessionObserve s (some g) homeScore awayScore).internalPrevGameId =
        some g) := by
  refine ⟨?_, ?_, ?_⟩
  · intro s gameId homeNew awayNew hg hni
    simp [dashboardScoreBaselineUpdate, hg, hni]
  · intro s g homeScore awayScore hg
    simp [nhlApiSessionObserve, hg]
  · intro s g homeScore awayScore hg
    simp [nhlApiSessionObserve, hg, clearPendingEvents]

/-- C4 amended witness: concrete instances of all three behaviours for
game "2024020500" with baseline 2-1. -/
theorem scoreBaselineBehavior_witness :
    (let s0 : EngineState :=
      { internalPrevGameId := some "2024020500"
        internalPrevHomeScore := 2
        internalPrevAwayScore := 1
        firedEventIds := ["55"] }
    dashboardScoreBaselineUpdate s0 (some "2024020500") 1 0 = s0 ∧
    nhlApiSessionObserve s0 (some "2024020500") 1 0 =
      { s0 with internalPrevHomeScore := 1, internalPrevAwayScore := 0 } ∧
    (nhlApiSessionObserve s0 (some "2024020600") 1 0).firedEventIds = [] ∧
    (nhlApiSessionObserve s0 (some "2024020600") 1 0).internalPrevGameId =
      some "2024020600") := by
  refine ⟨scoreBaselineBehavior.1 _ _ 1 0 rfl (by decide),
    scoreBaselineBehavior.2.1 _ "2024020500" 1 0 rfl,
    (scoreBaselineBehavior.2.2 _ "2024020600" 1 0 (by decide)).1,
    (scoreBaselineBehavior.2.2 _ "2024020600" 1 0 (by decide)).2⟩

/-! ### C6: full session reset on game-id change -/

/-- C6: an observation carrying a `game_id` different from the tracked
one (including the no-session case, where the tracked id is `none`)
performs a full session reset on both listener paths: every coalescing
timer and scoreboard-fallback timer is cancelled and removed, the draft
payloads, the fired-event log and the processed-goal-id set are cleared,
the suppression state is zeroed, and the previous-score baseline is set
to the scores carried by the triggering observation, not to zero. -/
theorem fullSessionResetOnNewGameId :
    (∀ s g homeScore awayScore isTest, some g ≠ s.internalPrevGameId →
      (dashboardSessionObserve s (some g) homeScore awayScore isTest).pendingEventTimers = [] ∧
      (dashboardSessionObserve s (some g) homeScore awayScore isTest).pendingEventPayloads = [] ∧
      (dashboardSessionObserve s (some g) homeScore awayScore isTest).firedEventIds = [] ∧
      (dashboardSessionObserve s (some g) homeScore awayScore isTest).nhlApiGoalIdsProcessed = [] ∧
      (dashboardSessionObserve s (some g) homeScore awayScore isTest).pendingSbGoalTimers = [] ∧
      (dashboardSessionObserve s (some g) homeScore awayScore isTest).sbGoalSuppressUntilTs = 0 ∧
      (dashboardSessionObserve s (some g) homeScore awayScore isTest).sbLastFiredHomeAway = none ∧
      (dashboardSessionObserve s (some g) homeScore awayScore isTest).internalPrevGameId = some g ∧
      (dashboardSessionObserve s (some g) homeScore awayScore isTest).internalPrevHomeScore = homeScore ∧
      (dashboardSessionObserve s (some g) homeScore awayScore isTest).internalPrevAwayScore = awayScore) ∧
    (∀ s g homeScore awayScore, some g ≠ s.internalPrevGameId →
      (nhlApiSessionObserve s (some g) homeScore awayScore).pendingEventTimers = [] ∧
      (nhlApiSessionObserve s (some g) homeScore awayScore).pendingEventPayloads = [] ∧
      (nhlApiSessionObserve s (some g) homeScore awayScore).firedEventIds = [] ∧
      (nhlApiSessionObserve s (some g) homeScore awayScore).nhlApiGoalIdsProcessed = [] ∧
      (nhlApiSessionObserve s (some g) homeScore awayScore).pendingSbGoalTimers = [] ∧
      (nhlApiSessionObserve s (some g) homeScore awayScore).sbGoalSuppressUntilTs = 0 ∧
      (nhlApiSessionObserve s (some g) homeScore awayScore).sbLastFiredHomeAway = none ∧
      (nhlApiSessionObserve s (some g) homeScore awayScore).internalPrevGameId = some g ∧
      (nhlApiSessionObserve s (some g) homeScore awayScore).internalPrevHomeScore = homeScore ∧
      (nhlApiSessionObserve s (some g) homeScore awayScore).internalPrevAwayScore = awayScore) := by
  constructor
  · intro s g homeScore awayScore isTest hg
    simp [dashboardSessionObserve, hg, clearPendingEvents]
  · intro s g homeScore awayScore hg
    simp [nhlApiSessionObserve, hg, clearPendingEvents]

/-- C6 witness: a dashboard observation for a new game id "2024020600"
arriving with the score already 3-2 on the board resets a populated
session and re-baselines at 3-2 (and the API path behaves identically). -/
theorem fullSessionResetOnNewGameId_witness :
    (let s0 : EngineState :=
      { internalPrevGameId := some "2024020500"
        internalPrevHomeScore := 2
        internalPrevAwayScore := 1
        firedEventIds := ["55"]
        nhlApiGoalIdsProcessed := ["55"]
        pendingEventTimers := [⟨"77", .goal, 13/10⟩]
        pendingEventPayloads := [("77", {})]
        pendingSbGoalTimers := [⟨(2, 1), 1/10⟩]
        sbGoalSuppressUntilTs := 7
        sbLastFiredHomeAway := some (2, 1) }
    (dashboardSessionObserve s0 (some "2024020600") 3 2 false).pendingEventTimers = [] ∧
    (dashboardSessionObserve s0 (some "2024020600") 3 2 false).firedEventIds = [] ∧
    (dashboardSessionObserve s0 (some "2024020600") 3 2 false).internalPrevHomeScore = 3 ∧
    (dashboardSessionObserve s0 (some "2024020600") 3 2 false).internalPrevAwayScore = 2 ∧
    (nhlApiSessionObserve s0 (some "2024020600") 3 2).internalPrevHomeScore = 3 ∧
    (nhlApiSessionObserve s0 (some "2024020600") 3 2).firedEventIds = []) := by
  have hd := fullSessionResetOnNewGameId.1
    { internalPrevGameId := some "2024020500"
      internalPrevHomeScore := 2
      internalPrevAwayScore := 1
      firedEventIds := ["55"]
      nhlApiGoalIdsProcessed := ["55"]
      pendingEventTimers := [⟨"77", .goal, 13/10⟩]
      pendingEventPayloads := [("77", {})]
      pendingSbGoalTimers := [⟨(2, 1), 1/10⟩]
      sbGoalSuppressUntilTs := 7
      sbLastFiredHomeAway := some (2, 1) }
    "2024020600" 3 2 false (by decide)
  have ha := fullSessionResetOnNewGameId.2
    { internalPrevGameId := some "2024020500"
      internalPrevHomeScore := 2
      internalPrevAwayScore := 1
      firedEventIds := ["55"]
      nhlApiGoalIdsProcessed := ["55"]
      pendingEventTimers := [⟨"77", .goal, 13/10⟩]
      pendingEventPayloads := [("77", {})]
      pendingSbGoalTimers := [⟨(2, 1), 1/10⟩]
      sbGoalSuppressUntilTs := 7
      sbLastFiredHomeAway := some (2, 1) }
    "2024020600" 3 2 (by decide)
  exact ⟨hd.1, hd.2.2.1, hd.2.2.2.2.2.2.2.2.1, hd.2.2.2.2.2.2.2.2.2,
    ha.2.2.2.2.2.2.2.2.1, ha.2.2.1⟩

/-! ### C5: win idempotence (violated by the code) -/

/-- C5 failing-input exhibit: `_process_nhl_api_win` guards on
`internal_win_fired_game_id` at observation time but the flag is only
assigned inside the delayed `_fire_win` closure, so two terminal
(FINAL/OFF) observations for the same game id arriving before the
broadcast-delay timer elapses each pass the guard and each schedule a
win timer; when both timers fire, the team win event is dispatched
twice for one `game_id`, violating at-most-once. -/
theorem winEventDoubleFire_bug :
    (let s0 : EngineState :=
      { internalPrevGameId := some "2024020500" }
    let s1 := processNhlApiWin s0 (some "2024020500") 3 2 true true
    let s2 := processNhlApiWin s1 (some "2024020500") 3 2 true true
    let r3 := fireWinTimer s2 "2024020500"
    let r4 := fireWinTimer r3.1 "2024020500"
    s2.pendingWinTimers = ["2024020500", "2024020500"] ∧
    r3.2 = some (.winEvent "2024020500") ∧
    r4.2 = some (.winEvent "2024020500") ∧
    winDispatchesFor "2024020500" (r3.2.toList ++ r4.2.toList) = 2 ∧
    (processNhlApiWin r4.1 (some "2024020500") 3 2 true true).pendingWinTimers = []) := by
  refine ⟨?_, ?_, ?_, ?_, ?_⟩ <;> decide

/-! ### C9: scoreboard-fallback delay budget -/

/-- C9 counterexample: with the default configuration
(`coalesce_goal_seconds = 1.3`, broadcast delay 0), an identified goal
is scheduled with delay `max(0.1, 1.3 + 0) = 1.3` seconds while the
scoreboard-fallback timer for the same score signature is scheduled
with delay `max(0.1, 0) = 0.1` seconds: the fallback path does not use
the goal coalescing window, so its delay budget differs from an
identified goal's. -/
theorem sbFallbackDelayBudget_cex :
    (let sFb := dashboardScheduleSbFallback clearedEngineState (2, 1) 0
    let sId := dashboardIdentifiedGoalObserve clearedEngineState "55" (2, 1) {}
      (13/10) 0
    sFb.pendingSbGoalTimers = [⟨(2, 1), 1/10⟩] ∧
    sId.pendingEventTimers = [⟨"55", .goal, 13/10⟩] ∧
    (1/10 : ℚ) ≠ 13/10) := by
  have e0 : max (1/10 : ℚ) 0 = 1/10 := max_eq_left (by norm_num)
  have e1 : (13/10 : ℚ) + 0 = 13/10 := by norm_num
  have e2 : max (1/10 : ℚ) (13/10) = 13/10 := max_eq_right (by norm_num)
  refine ⟨?_, ?_, by norm_num⟩
  · simp [dashboardScheduleSbFallback, clearedEngineState, e0] <;> norm_num
  · simp [dashboardIdentifiedGoalObserve, scheduleEventCoalesced, hasTimer,
      clearedEngineState, e1, e2] <;> norm_num

/-- C9 amended: a score-only observation schedules its fallback dispatch
timer keyed by the score signature `(home_score, away_score)` (replacing
any previous timer under that key, and under no other key), but with
delay `max(0.1, broadcast_delay)` — only the broadcast-delay offset,
without the goal coalescing window. -/
theorem sbFallbackDelayKeyedBySig :
    ∀ s sig broadcastDelay,
      (∃ t ∈ (dashboardScheduleSbFallback s sig broadcastDelay).pendingSbGoalTimers,
        t.sig = sig ∧ t.delay = max (1/10) broadcastDelay) ∧
      (∀ t ∈ (dashboardScheduleSbFallback s sig broadcastDelay).pendingSbGoalTimers,
        t.sig = sig → t.delay = max (1/10) broadcastDelay) ∧
      (∀ t ∈ (dashboardScheduleSbFallback s sig broadcastDelay).pendingSbGoalTimers,
        t.sig ≠ sig → t ∈ s.pendingSbGoalTimers) := by
  intro s sig broadcastDelay
  refine ⟨⟨⟨sig, max (1/10) broadcastDelay⟩, ?_, rfl, rfl⟩, ?_, ?_⟩
  · simp [dashboardScheduleSbFallback]
  · intro t ht hsig
    rcases List.mem_cons.mp ht with h | h
    · simp [h]
    · exact absurd hsig (by simpa using (List.mem_filter.mp h).2)
  · intro t ht hne
    rcases List.mem_cons.mp ht with h | h
    · exact absurd (congrArg SbTimer.sig h) hne
    · exact (List.mem_filter.mp h).1

/-- C9 amended witness: scheduling a fallback for signature (2,1) with
broadcast delay 30 stores exactly one timer under that key with delay
`max(0.1, 30) = 30`. -/
theorem sbFallbackDelayKeyedBySig_witness :
    (∃ t ∈ (dashboardScheduleSbFallback clearedEngineState (2, 1) 30).pendingSbGoalTimers,
      t.sig = (2, 1) ∧ t.delay = max (1/10) 30) ∧
    ((dashboardScheduleSbFallback clearedEngineState (2, 1) 30).pendingSbGoalTimers =
      [⟨(2, 1), 30⟩]) :=
  ⟨(sbFallbackDelayKeyedBySig clearedEngineState (2, 1) 30).1, by
    simp [dashboardScheduleSbFallback, clearedEngineState] <;> norm_num⟩

/-! ### C2: cross-source goal dedup by score signature -/

/-- C2: at most one goal dispatch per score signature S inside the
suppression window, by the two mechanisms the engine uses.  First, when
an identified NHL-API goal for S is observed while a scoreboard-fallback
timer for S is pending, that timer is popped and cancelled during the
observation callback — and a cancelled timer's wrapper never runs, so it
dispatches nothing.  Second, a coalesced goal whose reconstructed score
signature equals the recorded last scoreboard signature is discarded
without dispatch while the suppression window has not expired. -/
theorem crossSourceGoalDedup :
    (∀ s eventId sig payload now cg sup bd,
      eventId ∉ s.nhlApiGoalIdsProcessed →
      (nhlApiGoalObserve s eventId sig payload now cg sup bd).pendingSbGoalTimers.any
        (fun t => t.sig == sig) = false) ∧
    (∀ s sig now sup,
      s.pendingSbGoalTimers.any (fun t => t.sig == sig) = false →
      sbTimerFire s sig now sup = (s, none)) ∧
    (∀ eventId p now suppressUntil,
      now < suppressUntil → p.homeAbbr ≠ "" → p.myTeamAbbr ≠ "" →
      coalescedFireGoal eventId p now suppressUntil
        (some (if p.myTeamAbbr == p.homeAbbr then (p.myScore, p.oppScore)
          else (p.oppScore, p.myScore))) = none) := by
  refine ⟨?_, ?_, ?_⟩
  · intro s eventId sig payload now cg sup bd hnp
    have hsb : ∀ s2 : EngineState, ∀ eid et pl d,
        (scheduleEventCoalesced s2 eid et pl d).pendingSbGoalTimers =
          s2.pendingSbGoalTimers := by
      intro s2 eid et pl d
      by_cases hf : eid ∈ s2.firedEventIds <;>
        by_cases ht : hasTimer s2 eid <;>
        simp [scheduleEventCoalesced, hf, ht]
    simp only [nhlApiGoalObserve, if_neg hnp, hsb]
    simp [List.any_eq_true, List.mem_filter]
  · intro s sig now sup hnone
    simp [sbTimerFire, hnone]
  · intro eventId p now suppressUntil hlt hh hm
    by_cases hsame : p.myTeamAbbr == p.homeAbbr <;>
      simp [coalescedFireGoal, hh, hm, hsame, hlt]

/-- Helper: the scheduling helper does not touch the scoreboard
suppression fields, so an NHL-API goal observation leaves the window
it just opened in place. -/
theorem nhlApiGoalObserve_suppressionFields (s : EngineState) (eventId : String)
    (sig : Int × Int) (payload : GoalPayload) (now cg sup bd : ℚ)
    (h : eventId ∉ s.nhlApiGoalIdsProcessed) :
    (nhlApiGoalObserve s eventId sig payload now cg sup bd).sbGoalSuppressUntilTs =
      now + sup ∧
    (nhlApiGoalObserve s eventId sig payload now cg sup bd).sbLastFiredHomeAway =
      some sig := by
  have hsched : ∀ s2 : EngineState, ∀ eid et pl d,
      (scheduleEventCoalesced s2 eid et pl d).sbGoalSuppressUntilTs =
        s2.sbGoalSuppressUntilTs ∧
      (scheduleEventCoalesced s2 eid et pl d).sbLastFiredHomeAway =
        s2.sbLastFiredHomeAway := by
    intro s2 eid et pl d
    by_cases hf : eid ∈ s2.firedEventIds <;>
      by_cases ht : hasTimer s2 eid <;>
      simp [scheduleEventCoalesced, hf, ht]
  simp [nhlApiGoalObserve, h, (hsched _ _ _ _ _).1, (hsched _ _ _ _ _).2]

/-- Sample state for the C2 witness: a scoreboard-fallback timer for
signature (2,1) is pending when the identified API goal arrives. -/
def sampleStateC2 : EngineState :=
  { internalPrevGameId := some "2024020500"
    pendingSbGoalTimers := [⟨(2, 1), 1/10⟩] }

/-- Sample identified-goal payload for the C2 witness (tracked team is
the home side, signature (2,1)). -/
def samplePayloadC2 : GoalPayload :=
  { myTeamAbbr := "BOS", homeAbbr := "BOS", awayAbbr := "TOR",
    myScore := 2, oppScore := 1 }

/-- C2 witness: concrete run — an API goal "55" for signature (2,1)
observed at t=10 with a fallback timer for (2,1) pending cancels that
timer (so its later elapse dispatches nothing), and a coalesced goal
carrying the same signature fired at t=11.3 inside the 5-second window
is discarded. -/
theorem crossSourceGoalDedup_witness :
    (let s1 := nhlApiGoalObserve sampleStateC2 "55" (2, 1) samplePayloadC2
      10 (13/10) 5 0
    s1.pendingSbGoalTimers.any (fun t => t.sig == ((2, 1) : Int × Int)) = false ∧
    sbTimerFire s1 (2, 1) 11 5 = (s1, none) ∧
    coalescedFireGoal "55" samplePayloadC2 (113/10) s1.sbGoalSuppressUntilTs
      s1.sbLastFiredHomeAway = none) := by
  have hnp : "55" ∉ sampleStateC2.nhlApiGoalIdsProcessed := by
    simp [sampleStateC2]
  have hsup := nhlApiGoalObserve_suppressionFields sampleStateC2 "55" (2, 1)
    samplePayloadC2 10 (13/10) 5 0 hnp
  refine ⟨crossSourceGoalDedup.1 sampleStateC2 "55" (2, 1) samplePayloadC2
      10 (13/10) 5 0 hnp,
    crossSourceGoalDedup.2.1 _ (2, 1) 11 5
      (crossSourceGoalDedup.1 sampleStateC2 "55" (2, 1) samplePayloadC2
        10 (13/10) 5 0 hnp), ?_⟩
  rw [hsup.1, hsup.2]
  have h3 := crossSourceGoalDedup.2.2 "55" samplePayloadC2 (113/10) (10 + 5)
    (by norm_num) (by simp [samplePayloadC2]) (by simp [samplePayloadC2])
  simpa [samplePayloadC2] using h3

/-! ### C8: late-binding detail at fire time -/

/-- C8: at fire time of a coalesced goal, the callback re-reads the
dashboard snapshot and, when the snapshot's current `last_event_id`
equals the firing event id, the goal is dispatched with the draft
payload overlaid with the fresh last event, the fresh period and time
(when non-empty), and the fresh scores mapped through the payload's
home/away orientation — the dispatched event reflects the fire-time
snapshot, not the draft stored at schedule time. -/
theorem lateBindingFireOverlay :
    ∀ s eventId p snap now t,
      s.pendingEventTimers.find? (fun x => x.eventId == eventId) = some t →
      t.eventType = .goal →
      s.pendingEventPayloads.find? (fun kv => kv.1 == eventId) = some (eventId, p) →
      snap.lastEventId = eventId →
      (coalescedFireCallback s eventId snap now).2 =
        coalescedFireGoal eventId
          { p with
              rawLastEvent := snap.lastEvent
              periodOrd := if snap.periodOrd ≠ "" then snap.periodOrd else p.periodOrd
              timeRemaining :=
                if snap.timeRemaining ≠ "" then snap.timeRemaining else p.timeRemaining
              myScore :=
                if p.myTeamAbbr == p.homeAbbr then snap.homeScore.getD p.myScore
                else snap.awayScore.getD p.myScore
              oppScore :=
                if p.myTeamAbbr == p.homeAbbr then snap.awayScore.getD p.oppScore
                else snap.homeScore.getD p.oppScore }
          now s.sbGoalSuppressUntilTs s.sbLastFiredHomeAway := by
  intro s eventId p snap now t hft hgt hfp hsnap
  have hid : snap.lastEventId == eventId := by
    simp [hsnap]
  simp [coalescedFireCallback, hft, hfp, hgt, overlayFreshSnapshot, hid]

/-- Sample draft payload for the C8 witness: scheduled with a stale 1st
period, time 00:42 and score 2-1, no raw event attached yet. -/
def samplePayloadC8 : GoalPayload :=
  { myTeamAbbr := "BOS", homeAbbr := "BOS", awayAbbr := "TOR",
    periodOrd := "1st", timeRemaining := "00:42", myScore := 2, oppScore := 1 }

/-- Sample fire-time dashboard snapshot for the C8 witness: the sensor
now shows event "55" with a scorer, the 2nd period and score 3-1. -/
def sampleSnapC8 : DashSnapshot :=
  { lastEventId := "55"
    lastEvent := some { typ := "goal", team := "BOS", scorer := some "Pastrnak" }
    periodOrd := "2nd", timeRemaining := "15:03"
    homeScore := some 3, awayScore := some 1 }

/-- Sample pending timer entry for the C8 witness. -/
def sampleTimerC8 : PendingTimer := ⟨"55", .goal, 13/10⟩

/-- Sample engine state for the C8 witness: event "55" pending with the
stale draft. -/
def sampleStateC8 : EngineState :=
  { pendingEventTimers := [sampleTimerC8]
    pendingEventPayloads := [("55", samplePayloadC8)] }

/-- C8 witness: event "55" scheduled with a bare draft (no scorer, stale
period and 2-1 score) fires while the dashboard already shows event "55"
with a scorer, the 2nd period and 3-1; the dispatched goal event carries
the fresh detail, period, time and scores. -/
theorem lateBindingFireOverlay_witness :
    (coalescedFireCallback sampleStateC8 "55" sampleSnapC8 20).2 =
      some (.goalEvent "55"
        { samplePayloadC8 with
            rawLastEvent := some { typ := "goal", team := "BOS", scorer := some "Pastrnak" }
            periodOrd := "2nd", timeRemaining := "15:03",
            myScore := 3, oppScore := 1 }) := by
  have h := lateBindingFireOverlay sampleStateC8 "55" samplePayloadC8 sampleSnapC8
    20 sampleTimerC8 rfl rfl rfl rfl
  rw [h]
  have hlt : ¬ ((20 : ℚ) < sampleStateC8.sbGoalSuppressUntilTs) := by
    simp [sampleStateC8]
  simp [coalescedFireGoal, samplePayloadC8, sampleSnapC8, sampleStateC8, hlt]

/-! ### C1: at-most-once dispatch per event id -/

/-- Predicate for a dispatched domain event carrying a given event id. -/
def dispatchHasEventId (eventId : String) (d : Dispatch) : Bool :=
  match d with
  | .goalEvent e _ => e == eventId
  | .penaltyEvent e => e == eventId
  | _ => false

theorem dispatchesFor_eq_countP (eventId : String) (ds : List Dispatch) :
    dispatchesFor eventId ds = ds.countP (dispatchHasEventId eventId) := by
  unfold dispatchesFor dispatchHasEventId
  rfl

/-- The per-event-id invariant maintained by every engine callback:
the dispatch count so far is at most one; a positive count means the
id is in the fired-event log; an id in the fired-event log has no live
timer; and at most one live timer exists for the id. -/
def coalesceInv (eventId : String) (s : EngineState) (dc : Nat) : Prop :=
  dc ≤ 1 ∧
  (1 ≤ dc → eventId ∈ s.firedEventIds) ∧
  (eventId ∈ s.firedEventIds → timerCount s eventId = 0) ∧
  timerCount s eventId ≤ 1

theorem coalesceInv_congr {eventId : String} {s s' : EngineState} {dc : Nat}
    (hf : s'.firedEventIds = s.firedEventIds)
    (ht : s'.pendingEventTimers = s.pendingEventTimers)
    (h : coalesceInv eventId s dc) : coalesceInv eventId s' dc := by
  unfold coalesceInv timerCount at h ⊢
  rw [hf, ht]
  exact h

theorem timerCount_eq_zero_of_hasTimer_false {s : EngineState} {eventId : String}
    (h : hasTimer s eventId = false) : timerCount s eventId = 0 := by
  unfold hasTimer at h
  unfold timerCount
  exact List.countP_eq_zero.mpr (by
    intro t ht
    have := List.any_eq_false.mp h t ht
    simpa using this)

theorem coalesceInv_schedule {eventId : String} {s : EngineState} {dc : Nat}
    (h : coalesceInv eventId s dc) (eventId2 : String) (eventType : EventType)
    (payload : GoalPayload) (delay : ℚ) :
    coalesceInv eventId (scheduleEventCoalesced s eventId2 eventType payload delay) dc := by
  by_cases hf : eventId2 ∈ s.firedEventIds
  · simpa [scheduleEventCoalesced, hf] using h
  · by_cases ht : hasTimer s eventId2
    · refine coalesceInv_congr ?_ ?_ h <;> simp [scheduleEventCoalesced, hf, ht]
    · obtain ⟨h1, h2, h3, h4⟩ := h
      have hts : (scheduleEventCoalesced s eventId2 eventType payload delay).pendingEventTimers =
          ⟨eventId2, eventType, max (1/10) delay⟩ :: s.pendingEventTimers := by
        simp [scheduleEventCoalesced, hf, ht]
      have hfs : (scheduleEventCoalesced s eventId2 eventType payload delay).firedEventIds =
          s.firedEventIds := by
        simp [scheduleEventCoalesced, hf, ht]
      have hcnt : timerCount (scheduleEventCoalesced s eventId2 eventType payload delay) eventId =
          timerCount s eventId + if eventId2 == eventId then 1 else 0 := by
        unfold timerCount
        rw [hts, List.countP_cons]
      refine ⟨h1, by rw [hfs]; exact h2, ?_, ?_⟩
      · intro hmem
        rw [hfs] at hmem
        rw [hcnt, h3 hmem]
        have hne : (eventId2 == eventId) = false := by
          by_contra hcontra
          have : eventId2 = eventId := by
            have := eq_true_of_ne_false hcontra
            exact eq_of_beq (by simpa using this)
          exact hf (this ▸ hmem)
        simp [hne]
      · rw [hcnt]
        by_cases heq : eventId2 = eventId
        · subst heq
          have h0 : timerCount s eventId2 = 0 :=
            timerCount_eq_zero_of_hasTimer_false (by simpa using ht)
          simp [h0]
        · have : (eventId2 == eventId) = false := by
            simpa using heq
          simpa [this] using h4

theorem timerCount_le_of_filter (s : EngineState) (eventId eventId2 : String) :
    (s.pendingEventTimers.filter (fun t => t.eventId != eventId2)).countP
      (fun t => t.eventId == eventId) ≤ timerCount s eventId := by
  unfold timerCount
  rw [List.countP_filter]
  exact List.countP_mono_left (by intro t _ hpq; exact (Bool.and_elim_left hpq))

theorem coalescedFireGoal_shape (eventId : String) (p : GoalPayload)
    (now sup : ℚ) (lastFired : Option (Int × Int)) :
    coalescedFireGoal eventId p now sup lastFired = none ∨
    coalescedFireGoal eventId p now sup lastFired = some (.goalEvent eventId p) := by
  unfold coalescedFireGoal
  by_cases hha : p.homeAbbr ≠ "" ∧ p.myTeamAbbr ≠ ""
  · rw [if_pos hha]
    by_cases hsup : now < sup ∧
        lastFired = some (if p.myTeamAbbr == p.homeAbbr then (p.myScore, p.oppScore)
          else (p.oppScore, p.myScore))
    · rw [if_pos hsup]
      exact Or.inl rfl
    · rw [if_neg hsup]
      exact Or.inr rfl
  · rw [if_neg hha]
    exact Or.inr rfl

theorem coalesceInv_fire {eventId : String} {s : EngineState} {dc : Nat}
    (h : coalesceInv eventId s dc) (eventId2 : String) (snap : DashSnapshot) (now : ℚ) :
    coalesceInv eventId (coalescedFireCallback s eventId2 snap now).1
      (dc + dispatchesFor eventId (coalescedFireCallback s eventId2 snap now).2.toList) := by
  obtain ⟨h1, h2, h3, h4⟩ := h
  cases hft : s.pendingEventTimers.find? (fun t => t.eventId == eventId2) with
  | none =>
    simpa [coalescedFireCallback, hft, dispatchesFor] using ⟨h1, h2, h3, h4⟩
  | some t =>
    cases hfp : s.pendingEventPayloads.find? (fun kv => kv.1 == eventId2) with
    | none =>
      simpa [coalescedFireCallback, hft, hfp, dispatchesFor] using ⟨h1, h2, h3, h4⟩
    | some kv =>
      have hstate : (coalescedFireCallback s eventId2 snap now).1 =
          { s with
              firedEventIds := eventId2 :: s.firedEventIds
              pendingEventTimers :=
                s.pendingEventTimers.filter (fun t => t.eventId != eventId2)
              pendingEventPayloads :=
                s.pendingEventPayloads.filter (fun kv => kv.1 != eventId2)
              internalPrevLastEventId := some eventId2 } := by
        simp [coalescedFireCallback, hft, hfp]
      have hdisp : dispatchesFor eventId
          (coalescedFireCallback s eventId2 snap now).2.toList ≤
          if eventId2 == eventId then 1 else 0 := by
        have hsplit : (coalescedFireCallback s eventId2 snap now).2 = none ∨
            (coalescedFireCallback s eventId2 snap now).2 =
              some (.goalEvent eventId2 (overlayFreshSnapshot eventId2 kv.2 snap)) ∨
            (coalescedFireCallback s eventId2 snap now).2 =
              some (.penaltyEvent eventId2) := by
          simp only [coalescedFireCallback, hft, hfp]
          cases t.eventType with
          | goal =>
            rcases coalescedFireGoal_shape eventId2 (overlayFreshSnapshot eventId2 kv.2 snap)
                now s.sbGoalSuppressUntilTs s.sbLastFiredHomeAway with hg | hg <;>
              simp [hg]
          | penalty => simp
        rcases hsplit with hd | hd | hd <;>
          simp [hd, dispatchesFor, List.countP_cons] <;>
          split <;> simp_all
      by_cases heq : eventId2 = eventId
      · subst heq
        have hpos : 0 < timerCount s eventId2 := by
          have hmemt := List.mem_of_find?_eq_some hft
          have hpt := List.find?_some hft
          unfold timerCount
          exact List.countP_pos.mpr ⟨t, hmemt, hpt⟩
        have hnf : eventId2 ∉ s.firedEventIds := by
          intro hmem
          rw [h3 hmem] at hpos
          exact absurd hpos (by norm_num)
        have hdc : dc = 0 := by
          by_contra hne
          exact hnf (h2 (Nat.one_le_iff_ne_zero.mpr hne))
        subst hdc
        have hcnt0 : timerCount (coalescedFireCallback s eventId2 snap now).1 eventId2 = 0 := by
          rw [hstate]
          unfold timerCount
          simp only []
          exact List.countP_eq_zero.mpr (by
            intro x hx
            have := (List.mem_filter.mp hx).2
            simpa using this)
        refine ⟨?_, ?_, fun _ => hcnt0, le_of_eq_of_le hcnt0 (by norm_num)⟩
        · have := hdisp
          simp only [beq_self_eq_true, if_true] at this
          omega
        · intro _
          rw [hstate]
          exact List.mem_cons_self _ _
      · have hne : (eventId2 == eventId) = false := by simpa using heq
        have hdc0 : dispatchesFor eventId
            (coalescedFireCallback s eventId2 snap now).2.toList = 0 := by
          have := hdisp
          rw [hne] at this
          simpa using this
        rw [hdc0]
        have hmem' : eventId ∈ (coalescedFireCallback s eventId2 snap now).1.firedEventIds ↔
            eventId ∈ s.firedEventIds := by
          rw [hstate]
          simp only [List.mem_cons]
          constructor
          · rintro (hc | hc)
            · exact absurd hc.symm heq
            · exact hc
          · exact fun hc => Or.inr hc
        have hcle : timerCount (coalescedFireCallback s eventId2 snap now).1 eventId ≤
            timerCount s eventId := by
          rw [hstate]
          unfold timerCount
          simp only []
          exact timerCount_le_of_filter s eventId eventId2
        refine ⟨by simpa using h1, ?_, ?_, le_trans hcle h4⟩
        · intro hle
          rw [hmem']
          exact h2 (by simpa using hle)
        · intro hmem
          have := h3 (hmem'.mp hmem)
          omega

theorem coalesceInv_engineStep {eventId : String} (a : EngineAction)
    {s : EngineState} {dc : Nat} (h : coalesceInv eventId s dc) :
    coalesceInv eventId (engineStep s a).1
      (dc + dispatchesFor eventId (engineStep s a).2) := by
  cases a with
  | observeIdentifiedGoal eventId2 sig payload cg bd =>
    simp only [engineStep, dispatchesFor, List.countP_nil, Nat.add_zero]
    unfold dashboardIdentifiedGoalObserve
    by_cases hf : eventId2 ∈ s.firedEventIds
    · simpa [hf] using h
    · simp only [if_neg hf]
      have h2 : coalesceInv eventId
          { s with pendingSbGoalTimers :=
              s.pendingSbGoalTimers.filter (fun t => t.sig != sig) } dc :=
        coalesceInv_congr rfl rfl h
      exact coalesceInv_schedule h2 eventId2 .goal payload _
  | observeIdentifiedPenalty eventId2 payload cp bd =>
    simp only [engineStep, dispatchesFor, List.countP_nil, Nat.add_zero]
    unfold dashboardIdentifiedPenaltyObserve
    by_cases hf : eventId2 ∈ s.firedEventIds
    · simpa [hf] using h
    · simp only [if_neg hf]
      exact coalesceInv_schedule h eventId2 .penalty payload _
  | observeApiGoal eventId2 sig payload now cg sup bd =>
    simp only [engineStep, dispatchesFor, List.countP_nil, Nat.add_zero]
    unfold nhlApiGoalObserve
    by_cases hp : eventId2 ∈ s.nhlApiGoalIdsProcessed
    · simpa [hp] using h
    · simp only [if_neg hp]
      have h2 : coalesceInv eventId
          { s with
              pendingSbGoalTimers := s.pendingSbGoalTimers.filter (fun t => t.sig != sig)
              sbLastFiredHomeAway := some sig
              sbGoalSuppressUntilTs := now + sup } dc :=
        coalesceInv_congr rfl rfl h
      have h3 := coalesceInv_schedule h2 eventId2 .goal payload (max (1/10) (cg + bd))
      exact coalesceInv_congr rfl rfl h3
  | scheduleSbFallback sig bd =>
    simp only [engineStep, dispatchesFor, List.countP_nil, Nat.add_zero]
    exact coalesceInv_congr rfl rfl h
  | sbFire sig now sup =>
    by_cases hp : s.pendingSbGoalTimers.any (fun t => t.sig == sig)
    · have : engineStep s (.sbFire sig now sup) =
          ({ s with
              sbLastFiredHomeAway := some sig
              sbGoalSuppressUntilTs := now + sup
              pendingSbGoalTimers :=
                s.pendingSbGoalTimers.filter (fun t => t.sig != sig) },
            [.sbGoalEvent sig]) := by
        simp [engineStep, sbTimerFire, hp]
      rw [this]
      simpa [dispatchesFor] using coalesceInv_congr rfl rfl h
    · have : engineStep s (.sbFire sig now sup) = (s, []) := by
        simp [engineStep, sbTimerFire, hp]
      rw [this]
      simpa [dispatchesFor] using h
  | timerFire eventId2 snap now =>
    have : engineStep s (.timerFire eventId2 snap now) =
        ((coalescedFireCallback s eventId2 snap now).1,
          (coalescedFireCallback s eventId2 snap now).2.toList) := by
      simp [engineStep]
    rw [this]
    exact coalesceInv_fire ⟨h.1, h.2.1, h.2.2.1, h.2.2.2⟩ eventId2 snap now

theorem coalesceInv_runTrace {eventId : String} (acts : List EngineAction) :
    ∀ s dc, coalesceInv eventId s dc →
      coalesceInv eventId (runTrace s acts).1
        (dc + dispatchesFor eventId (runTrace s acts).2) := by
  induction acts with
  | nil =>
    intro s dc h
    simpa [runTrace, dispatchesFor] using h
  | cons a rest ih =>
    intro s dc h
    have hstep := coalesceInv_engineStep a h
    have hrec := ih (engineStep s a).1 (dc + dispatchesFor eventId (engineStep s a).2) hstep
    have hshape : runTrace s (a :: rest) =
        ((runTrace (engineStep s a).1 rest).1,
          (engineStep s a).2 ++ (runTrace (engineStep s a).1 rest).2) := by
      simp [runTrace]
    rw [hshape]
    have hcount : dispatchesFor eventId
        ((engineStep s a).2 ++ (runTrace (engineStep s a).1 rest).2) =
        dispatchesFor eventId (engineStep s a).2 +
          dispatchesFor eventId (runTrace (engineStep s a).1 rest).2 := by
      unfold dispatchesFor
      exact List.countP_append _ _ _
    rw [hcount, ← Nat.add_assoc]
    exact hrec

theorem coalesceInv_cleared (eventId : String) :
    coalesceInv eventId clearedEngineState 0 := by
  refine ⟨by norm_num, by norm_num, ?_, ?_⟩ <;>
    simp [clearedEngineState, timerCount]

/-- C1: per event id, the engine dispatches at most once over any
serially-ordered sequence of callbacks within one session: a schedule
call for an event id already in the fired-event log is a no-op; firing a
live timer records the event id in the fired-event log within the same
atomic callback (hence before any later schedule call is processed); and
over any callback sequence starting from the cleared (post-reset) state,
at most one live timer exists per event id at any time and at most one
domain event is dispatched per event id. -/
theorem coalescedDispatchAtMostOnce :
    (∀ s eventId eventType payload delay, eventId ∈ s.firedEventIds →
      scheduleEventCoalesced s eventId eventType payload delay = s) ∧
    (∀ s eventId snap now, hasTimer s eventId = true →
      (s.pendingEventPayloads.find? (fun kv => kv.1 == eventId)).isSome →
      eventId ∈ (coalescedFireCallback s eventId snap now).1.firedEventIds) ∧
    (∀ acts eventId, timerCount (runTrace clearedEngineState acts).1 eventId ≤ 1) ∧
    (∀ acts eventId, dispatchesFor eventId (runTrace clearedEngineState acts).2 ≤ 1) := by
  refine ⟨?_, ?_, ?_, ?_⟩
  · intro s eventId eventType payload delay hf
    simp [scheduleEventCoalesced, hf]
  · intro s eventId snap now ht hp
    cases hft : s.pendingEventTimers.find? (fun t => t.eventId == eventId) with
    | none =>
      exfalso
      rw [List.find?_eq_none] at hft
      unfold hasTimer at ht
      obtain ⟨x, hx, hpx⟩ := List.any_eq_true.mp ht
      exact hft x hx hpx
    | some t =>
      cases hfp : s.pendingEventPayloads.find? (fun kv => kv.1 == eventId) with
      | none => rw [hfp] at hp; simp at hp
      | some kv => simp [coalescedFireCallback, hft, hfp]
  · intro acts eventId
    exact (coalesceInv_runTrace acts clearedEngineState 0
      (coalesceInv_cleared eventId)).2.2.2
  · intro acts eventId
    have h := (coalesceInv_runTrace acts clearedEngineState 0
      (coalesceInv_cleared eventId)).1
    simpa using h

/-- C1 witness: concrete instances — a schedule call for already-fired
event "55" is a no-op; firing the live timer of event "55" records it in
the fired-event log. -/
theorem coalescedDispatchAtMostOnce_witness :
    (scheduleEventCoalesced
      { clearedEngineState with firedEventIds := ["55"] } "55" .goal {} 2 =
      { clearedEngineState with firedEventIds := ["55"] }) ∧
    "55" ∈ (coalescedFireCallback sampleStateC8 "55" sampleSnapC8 20).1.firedEventIds :=
  ⟨coalescedDispatchAtMostOnce.1
      { clearedEngineState with firedEventIds := ["55"] } "55" .goal {} 2
      (by simp [clearedEngineState]),
    coalescedDispatchAtMostOnce.2.1 sampleStateC8 "55" sampleSnapC8 20
      (by simp [sampleStateC8, sampleTimerC8, hasTimer]) (by simp [sampleStateC8])⟩

end NhlNotifications
